import Mathlib

/-!
Shallow embedding of the protocol/codec/scheduling core of the
`ha-stiebel-control-py` repository, together with proofs settling the
frozen claims about its natural-language specification.

Embedded modules (file and line references point into the repository):
* `stiebel_control/heatpump/elster_table.py` — value codec
  (`value_from_signal`, `signal_from_value`) and catalog lookup
  (`get_elster_entry_by_index`).
* `stiebel_control/can/protocol.py` — frame building and parsing,
  `read_signal`, `write_signal`, `_process_can_message`, pending requests.
* `stiebel_control/can/interface.py` — per-callback dispatch
  (`_process_callbacks`, `_call_callback`).
* `stiebel_control/heatpump/signal_poller.py` — per-due-task update step.
* `stiebel_control/signal_gateway.py` — unsolicited-signal filter.

Machine integers are modelled as `Nat`/`Int` with explicit masking where the
Python code masks; `time.time()` values as `ℚ`; Python floats as exact
rationals (an idealisation used only at inputs where the floating-point
computation is exact); fallible Python code as `Except String _` where an
exception escapes, `Option` where a parse may fail.
-/

namespace Stiebel

/-- `ElsterType` enumeration, elster_table.py lines 18-35. -/
inductive ElsterType where
  | ET_NONE
  | ET_INTEGER
  | ET_BOOLEAN
  | ET_DEC_VAL
  | ET_CENT_VAL
  | ET_MIL_VAL
  | ET_BYTE
  | ET_LITTLE_BOOL
  | ET_LITTLE_ENDIAN
  | ET_MODE
  | ET_TIME
  | ET_DATE
  | ET_TIME_DOMAIN
  | ET_DEV_NR
  | ET_ERR_CODE
  | ET_DEV_ID
  deriving DecidableEq, Repr

/-- `ElsterEntry`, elster_table.py lines 57-72: a signal with its metadata. -/
structure ElsterEntry where
  name : String
  english_name : String
  index : Nat
  type : ElsterType
  deriving DecidableEq, Repr

/-- The emergency fallback table, elster_table.py lines 83-85: a single
sentinel entry (index 0, type `ET_NONE`). -/
def fallback_signals : List ElsterEntry :=
  [⟨"INDEX_NOT_FOUND", "INDEX_NOT_FOUND", 0, .ET_NONE⟩]

/-- `MODELIST`, elster_table.py lines 147-154, in dict insertion order. -/
def MODELIST : List (Nat × String) :=
  [(0, "Emergency"), (1, "Standby"), (2, "Auto mode"), (3, "Day mode"),
   (4, "Night mode"), (5, "Warm Water")]

/-- `ERRORLIST`, elster_table.py lines 157-182, in dict insertion order. -/
def ERRORLIST : List (Nat × String) :=
  [(2, "Contactor stuck"), (3, "ERR HD sensor"), (4, "High pressure"),
   (5, "Evaporator sensor"), (6, "Relay driver"), (7, "Relay level"),
   (8, "Hex switch"), (9, "Fan speed"), (10, "Fan driver"),
   (11, "Reset module"), (12, "Low pressure (ND)"), (13, "ROM"),
   (14, "Source min. temp"), (16, "Defrosting"), (18, "ERR T-HEI IWS"),
   (23, "ERR T-FRO IWS"), (26, "Low pressure"), (27, "ERR low pressure"),
   (28, "ERR high pressure"), (29, "HD sensor max"), (30, "Hot gas max"),
   (31, "ERR HD sensor"), (32, "Freeze protection"), (33, "No output")]

/-- Lookup in a Python dict of `Nat` keys built in list order: later bindings
overwrite earlier ones, so the last matching pair wins. -/
def dictLookup (l : List (Nat × String)) (k : Nat) : Option String :=
  (l.reverse.find? (fun p => p.1 == k)).map (fun p => p.2)

/-- `ELSTER_INDEX_BY_INDEX` lookup with default, elster_table.py lines
133 and 208-217: the dict maps each entry's `index` to the entry (later
entries overwrite earlier ones on a duplicate index), and a miss yields the
sentinel `ELSTER_TABLE[0]` — never `None`. -/
def get_elster_entry_by_index (table : List ElsterEntry) (index : Nat) :
    ElsterEntry :=
  match table.reverse.find? (fun e => e.index == index) with
  | some e => e
  | none => table.headD ⟨"INDEX_NOT_FOUND", "INDEX_NOT_FOUND", 0, .ET_NONE⟩

/-- Values produced by the value codec: Python ints, bools, exact-rational
stand-ins for Python floats, and strings. -/
inductive PyValue where
  | int (i : Int)
  | bool (b : Bool)
  | rat (q : ℚ)
  | str (s : String)
  deriving DecidableEq, Repr

/-- `value_from_signal(value, value_type)`, elster_table.py lines 220-284.

The source's `elif` chain is broken at line 232, which reads
`elif    lsterType.ET_INTEGER or value_type == ElsterType.ET_BYTE:`:
the name `lsterType` is not defined, so for every `value_type` other than
`ET_NONE` evaluating that condition raises `NameError` before any of the
later branches (lines 234-284) can be reached.  The embedding returns the
raw value for `ET_NONE` (line 231) and the `NameError` for everything
else; the remaining branches of the source are dead code. -/
def value_from_signal (value : Nat) (value_type : ElsterType) :
    Except String PyValue :=
  match value_type with
  | .ET_NONE => .ok (.int value)
  | _ => .error "NameError: name 'lsterType' is not defined"

/-- Decimal digit-string value: `some` of the value when the (char-level)
string is nonempty and all digits, `none` otherwise. -/
def decDigits (l : List Char) : Option Nat :=
  if l ≠ [] ∧ l.all Char.isDigit then
    some (l.foldl (fun acc c => acc * 10 + (c.toNat - 48)) 0)
  else none

/-- Model of Python `int(s)` on a char-level string, restricted to
optionally-signed decimal digit strings; any other string raises
`ValueError`, modelled as `none`. -/
def pyIntChars (l : List Char) : Option Int :=
  match l with
  | '-' :: rest => (decDigits rest).map (fun n => -(n : Int))
  | '+' :: rest => (decDigits rest).map (fun n => (n : Int))
  | l => (decDigits l).map (fun n => (n : Int))

/-- Model of Python `int(s)`. -/
def pyInt (s : String) : Option Int :=
  pyIntChars s.data

/-- An exact rational `num / den` (with `den` a positive power of ten),
standing in for the Python float produced by `float(s)`: kept unnormalised
so that every operation on it is a plain structural computation.  This is
an idealisation of the IEEE double `float()` returns; the development only
draws conclusions from it at inputs where the subsequent scaled
computation is exact. -/
structure PyFloat where
  num : Int
  den : Nat
  deriving DecidableEq, Repr

/-- Model of Python `float(s)` restricted to optionally-signed decimal
literals `digits` or `digits.digits`, read exactly. -/
def pyFloat (s : String) : Option PyFloat :=
  let unsigned : List Char → Option PyFloat := fun l =>
    match l.splitOn '.' with
    | [whole] => (decDigits whole).map (fun n => ⟨(n : Int), 1⟩)
    | [whole, frac] =>
        match decDigits whole, decDigits frac with
        | some w, some f =>
            some ⟨(w : Int) * (10 : Int) ^ frac.length + (f : Int),
              10 ^ frac.length⟩
        | _, _ => none
    | _ => none
  match s.data with
  | '-' :: rest => (unsigned rest).map (fun q => ⟨-q.num, q.den⟩)
  | '+' :: rest => (unsigned rest).map (fun q => q)
  | l => unsigned l

/-- Python `int(f)` on the float `num / den`: truncation toward zero. -/
def PyFloat.trunc (q : PyFloat) : Int :=
  Int.tdiv q.num (q.den : Int)

/-- Python `f * k` on the float `num / den` and an integer scale. -/
def PyFloat.scale (q : PyFloat) (k : Int) : PyFloat :=
  ⟨q.num * k, q.den⟩

/-- Python `f < 0` on the float `num / den` (the denominator is
positive). -/
def PyFloat.isNeg (q : PyFloat) : Bool :=
  q.num < 0

/-- Python `i & 0xFFFF` on an int of either sign (infinite two's
complement): the canonical representative of `i` modulo 2^16. -/
def pyAnd16 (i : Int) : Int :=
  Int.emod i 65536

/-- Python `v & mask` for a mask below 2^16, on an int of either sign. -/
def pyAndMask16 (v : Int) (mask : Nat) : Nat :=
  (Int.emod v 65536).toNat &&& mask

/-- The strings (char-level, after `.lower()`) accepted as true by the
truthiness tests in `signal_from_value`, elster_table.py lines 302
and 305. -/
def truthyStrings : List (List Char) :=
  ["true", "1", "on", "yes"].map String.data

/-- `signal_from_value(string_value, value_type)`, elster_table.py lines
287-363.  Exceptions escaping the function (the explicit `ValueError` for
`ET_NONE` on line 298 and the `ValueError`s raised by `int()`/`float()` on
malformed input) are modelled as `.error`. -/
def signal_from_value (string_value : String) (value_type : ElsterType) :
    Except String Int :=
  match value_type with
  | .ET_NONE => .error "ValueError: Cannot write to signals with ET_NONE type"
  | .ET_INTEGER | .ET_BYTE =>
      match pyInt string_value with
      | some v => .ok v
      | none => .error "ValueError: invalid literal for int"
  | .ET_BOOLEAN =>
      .ok (if truthyStrings.contains (string_value.data.map Char.toLower)
        then 1 else 0)
  | .ET_LITTLE_BOOL =>
      .ok (if truthyStrings.contains (string_value.data.map Char.toLower)
        then 0x0100 else 0)
  | .ET_DEC_VAL =>
      match pyFloat string_value with
      | some q =>
          let floatVal := q.scale 10
          if floatVal.isNeg then .ok (pyAnd16 floatVal.trunc)
          else .ok floatVal.trunc
      | none => .error "ValueError: could not convert string to float"
  | .ET_CENT_VAL =>
      match pyFloat string_value with
      | some q =>
          let floatVal := q.scale 100
          if floatVal.isNeg then .ok (pyAnd16 floatVal.trunc)
          else .ok floatVal.trunc
      | none => .error "ValueError: could not convert string to float"
  | .ET_MIL_VAL =>
      match pyFloat string_value with
      | some q =>
          let floatVal := q.scale 1000
          if floatVal.isNeg then .ok (pyAnd16 floatVal.trunc)
          else .ok floatVal.trunc
      | none => .error "ValueError: could not convert string to float"
  | .ET_MODE =>
      .ok (((MODELIST.find? (fun p => p.2 == string_value)).map
        (fun p => (p.1 : Int))).getD 0)
  | .ET_ERR_CODE =>
      .ok (((ERRORLIST.find? (fun p => p.2 == string_value)).map
        (fun p => (p.1 : Int))).getD 0)
  | .ET_TIME =>
      match pyFloat string_value with
      | some q => .ok (q.scale 3600).trunc
      | none => .error "ValueError: could not convert string to float"
  | .ET_DATE =>
      let parts := string_value.data.splitOn '-'
      if parts.length == 3 then
        match pyIntChars (parts.getD 0 []), pyIntChars (parts.getD 1 []),
            pyIntChars (parts.getD 2 []) with
        | some y, some m, some d => .ok (y * 10000 + m * 100 + d)
        | _, _, _ => .error "ValueError: invalid literal for int"
      else .ok 0
  | .ET_LITTLE_ENDIAN =>
      match pyInt string_value with
      | some v =>
          .ok (((pyAndMask16 v 0xFF00) >>> 8 |||
            (pyAndMask16 v 0x00FF) <<< 8 : Nat) : Int)
      | none => .error "ValueError: invalid literal for int"
  | .ET_TIME_DOMAIN | .ET_DEV_NR | .ET_DEV_ID =>
      match pyInt string_value with
      | some v => .ok v
      | none => .error "ValueError: invalid literal for int"

/-- `CanMember`, protocol.py lines 26-33. -/
structure CanMember where
  name : String
  can_id : Nat
  read_id : Nat × Nat
  write_id : Nat × Nat
  confirmation_id : Nat × Nat := (0, 0)
  deriving DecidableEq, Repr, Inhabited

/-- `DEFAULT_CAN_MEMBERS`, protocol.py lines 46-56. -/
def DEFAULT_CAN_MEMBERS : List CanMember :=
  [⟨"HACLIENT", 0x680, (0x00, 0x00), (0x00, 0x00), (0xE2, 0x00)⟩,
   ⟨"BOILER", 0x180, (0x31, 0x00), (0x30, 0x00), (0x00, 0x00)⟩,
   ⟨"FE7X", 0x301, (0x61, 0x01), (0x00, 0x00), (0x00, 0x00)⟩,
   ⟨"FEK", 0x302, (0x61, 0x02), (0x00, 0x00), (0x00, 0x00)⟩,
   ⟨"MANAGER", 0x480, (0x91, 0x00), (0x90, 0x00), (0x00, 0x00)⟩,
   ⟨"HEATING", 0x500, (0xA1, 0x00), (0xA0, 0x00), (0x00, 0x00)⟩,
   ⟨"MIXER", 0x601, (0xC1, 0x01), (0xC0, 0x01), (0x00, 0x00)⟩,
   ⟨"FE7", 0x602, (0xC1, 0x02), (0x00, 0x00), (0x00, 0x00)⟩]

/-- The 7-byte read request payload built by `read_signal`, protocol.py
lines 207-231: `index_byte1 = (index >> 8) & 0xFF`,
`index_byte2 = index & 0xFF`; standard layout when `index_byte1 == 0`,
extended layout (`0xFA` marker) otherwise. -/
def read_frame_data (read_id : Nat × Nat) (index : Nat) : List Nat :=
  let index_byte1 := (index >>> 8) &&& 0xFF
  let index_byte2 := index &&& 0xFF
  if index_byte1 == 0 then
    [read_id.1, read_id.2, index_byte2, 0x00, 0x00, 0x00, 0x00]
  else
    [read_id.1, read_id.2, 0xFA, index_byte1, index_byte2, 0x00, 0x00]

/-- Python `(raw_value >> k) & 0xFF` on an int of either sign: `>>` is an
arithmetic (floor) shift and `& 0xFF` keeps the low byte. -/
def pyByte (v : Int) (k : Nat) : Nat :=
  ((Int.fdiv v ((2 : Int) ^ k)).emod 256).toNat

/-- The 7-byte write request payload built by `write_signal`, protocol.py
lines 284-310: same addressing as the read frame via `write_id`, with
`value_byte1 = (raw_value >> 8) & 0xFF` and `value_byte2 = raw_value & 0xFF`
placed in bytes 3-4 (standard) or 5-6 (extended). -/
def write_frame_data (write_id : Nat × Nat) (index : Nat) (raw_value : Int) :
    List Nat :=
  let index_byte1 := (index >>> 8) &&& 0xFF
  let index_byte2 := index &&& 0xFF
  let value_byte1 := pyByte raw_value 8
  let value_byte2 := pyByte raw_value 0
  if index_byte1 == 0 then
    [write_id.1, write_id.2, index_byte2, value_byte1, value_byte2, 0x00, 0x00]
  else
    [write_id.1, write_id.2, 0xFA, index_byte1, index_byte2, value_byte1,
      value_byte2]

/-- The payload-parsing step of `_process_can_message`, protocol.py lines
120-141: payloads shorter than 7 bytes are dropped (`none`); with byte 2
equal to `0xFA` the index is bytes 3-4 big-endian and the raw value bytes
5-6 big-endian; otherwise the index is byte 2 and the raw value bytes 3-4
big-endian. -/
def parse_frame (data : List Nat) : Option (Nat × Nat) :=
  if data.length < 7 then none
  else if data.getD 2 0 == 0xFA then
    some ((data.getD 3 0) <<< 8 + data.getD 4 0,
      (data.getD 5 0) <<< 8 + data.getD 6 0)
  else
    some (data.getD 2 0, (data.getD 3 0) <<< 8 + data.getD 4 0)

/-- An entry of `pending_requests`, protocol.py lines 235-238: the completion
callback (modelled by an opaque numeric tag) and the registration time. -/
structure PendingEntry where
  callback : Nat
  timestamp : ℚ
  deriving DecidableEq, Repr

/-- The `pending_requests` dict, protocol.py line 86, keyed by
`(can_id, index)`. -/
abbrev PendingMap := List ((Nat × Nat) × PendingEntry)

/-- Python dict lookup on the pending-request table. -/
def pendingLookup (m : PendingMap) (k : Nat × Nat) : Option PendingEntry :=
  (m.find? (fun p => p.1 == k)).map (fun p => p.2)

/-- Python dict assignment `self.pending_requests[key] = entry`: at most one
binding per key survives — any previous binding for `key` is replaced. -/
def pendingInsert (m : PendingMap) (k : Nat × Nat) (e : PendingEntry) :
    PendingMap :=
  (m.filter (fun p => p.1 ≠ k)) ++ [(k, e)]

/-- Python `dict.pop(key)`: the removed entry and the remaining table. -/
def pendingPop (m : PendingMap) (k : Nat × Nat) :
    Option (PendingEntry × PendingMap) :=
  match pendingLookup m k with
  | some e => some (e, m.filter (fun p => p.1 ≠ k))
  | none => none

/-- A global signal handler registered via `add_signal_handler`,
protocol.py lines 88-96, modelled by an identifying tag and whether calling
it raises an exception. -/
structure SigHandler where
  hid : Nat
  raising : Bool
  deriving DecidableEq, Repr

/-- The handler loop of `_process_can_message`, protocol.py lines 157-159:
`for handler in self.signal_handlers: handler(ei.index, typed_value, can_id)`.
There is no per-handler `try`; an exception from one handler propagates to
the per-message `except` (line 161), so the loop stops at the first raising
handler.  Returns the invocations performed (handler tag with the argument
triple) and whether an exception escaped the loop. -/
def protocol_notify (handlers : List SigHandler)
    (arg : Nat × PyValue × Nat) : List (Nat × (Nat × PyValue × Nat)) × Bool :=
  match handlers with
  | [] => ([], false)
  | h :: rest =>
      if h.raising then ([(h.hid, arg)], true)
      else
        let r := protocol_notify rest arg
        ((h.hid, arg) :: r.1, r.2)

/-- `CanInterface._call_callback`, interface.py lines 114-119: the callback
is invoked inside its own `try`, and an exception is caught and logged there,
never propagating to the loop in `_process_callbacks`. -/
def call_callback (h : SigHandler) (arg : Nat × PyValue × Nat) :
    List (Nat × (Nat × PyValue × Nat)) :=
  [(h.hid, arg)]

/-- The global-callback loop of `CanInterface._process_callbacks`,
interface.py lines 110-112: every registered callback is passed through
`_call_callback`, so each one is invoked regardless of exceptions raised by
the others. -/
def process_callbacks (handlers : List SigHandler)
    (arg : Nat × PyValue × Nat) : List (Nat × (Nat × PyValue × Nat)) :=
  handlers.flatMap (fun h => call_callback h arg)

/-- Result of `read_signal`: the returned bool, the pending-request table
after the call, and the payload handed to `transport.send_message` (`none`
when no send was attempted). -/
structure ReadResult where
  success : Bool
  pending : PendingMap
  sent : Option (List Nat)
  deriving DecidableEq, Repr

/-- `StiebelProtocol.read_signal`, protocol.py lines 179-254.

State and environment are passed explicitly: `members` is
`self.can_members`, `table` the loaded Elster catalog, `pending` the
`pending_requests` table, `send_ok` the value `transport.send_message`
returns, `now` the value `time.time()` returns, and `callback` the optional
callback (an opaque tag).

Control flow of the source: a member index at or past the end of the list
returns `False` (line 193); the signal lookup via
`get_elster_entry_by_index` always produces an entry object, so the
`if not ei` guard on line 201 never fires and an unknown index silently
proceeds with the sentinel entry; the payload is built from `ei.index`; the
pending request is registered (callback supplied) before the send; the
transport result is returned. -/
def read_signal (members : List CanMember) (table : List ElsterEntry)
    (pending : PendingMap) (send_ok : Bool) (member_index signal_index : Nat)
    (callback : Option Nat) (now : ℚ) : ReadResult :=
  if member_index ≥ members.length then ⟨false, pending, none⟩
  else
    let member := members.getD member_index default
    let ei := get_elster_entry_by_index table signal_index
    let data := read_frame_data member.read_id ei.index
    let pending1 :=
      match callback with
      | some cb => pendingInsert pending (member.can_id, ei.index) ⟨cb, now⟩
      | none => pending
    ⟨send_ok, pending1, some data⟩

/-- `StiebelProtocol.write_signal`, protocol.py lines 256-329.

The source converts the value with `signal_from_value` (an encode exception
is caught by the surrounding `except` and yields `False`), builds and sends
the write frame, and then, inside `if success:`, evaluates
`logger.debug(f"Sent write request for {signal_name}={value} ...")`
(line 320).  `signal_name` is not defined anywhere in the function (the
parameter is `signal_index`), so that f-string raises `NameError`, the
`except` on line 327 catches it, and the function returns `False`; the
confirmation read on line 323 is never reached.  A failed send skips the
`if success:` block and returns the `False` from the transport.  An
out-of-range member index raises `IndexError` on line 270, also caught. -/
def write_signal (members : List CanMember) (table : List ElsterEntry)
    (send_ok : Bool) (member_index signal_index : Nat) (value : String) :
    Bool :=
  if member_index ≥ members.length then false
  else
    let member := members.getD member_index default
    let ei := get_elster_entry_by_index table signal_index
    match signal_from_value value ei.type with
    | .error _ => false
    | .ok raw_value =>
        let _data := write_frame_data member.write_id ei.index raw_value
        if send_ok then
          false
        else send_ok

/-- Result of `_process_can_message`: the pending-request table after the
call, the pending-request callback invocations (callback tag with the typed
value), the global-handler invocations, and whether an exception was caught
by the per-message `except` on protocol.py line 161. -/
structure ProcessResult where
  pending : PendingMap
  callback_calls : List (Nat × PyValue)
  handler_calls : List (Nat × (Nat × PyValue × Nat))
  caught : Bool
  deriving DecidableEq, Repr

/-- `StiebelProtocol._process_can_message`, protocol.py lines 108-162,
applied to a message with arbitration id `can_id` and payload `data`.

Source order: drop payloads shorter than 7 bytes (line 121); extract
`(index, raw_value)` (lines 126-141, embedded as `parse_frame`); resolve the
catalog entry; decode with `value_from_signal` (line 144) — when the decode
raises, the per-message `except` catches it before the pending request is
popped, so the table is unchanged and nothing is invoked; otherwise pop and
invoke a matching pending callback (lines 150-155) and then run the handler
loop (lines 157-159), whose first raising handler aborts the loop into the
same per-message `except`. -/
def process_can_message (table : List ElsterEntry)
    (handlers : List SigHandler) (pending : PendingMap) (can_id : Nat)
    (data : List Nat) : ProcessResult :=
  match parse_frame data with
  | none => ⟨pending, [], [], false⟩
  | some (index, raw_value) =>
      let ei := get_elster_entry_by_index table index
      match value_from_signal raw_value ei.type with
      | .error _ => ⟨pending, [], [], true⟩
      | .ok typed_value =>
          let popped := pendingPop pending (can_id, index)
          let pending1 := match popped with
            | some r => r.2
            | none => pending
          let cb_calls := match popped with
            | some r => [(r.1.callback, typed_value)]
            | none => []
          let notif := protocol_notify handlers (ei.index, typed_value, can_id)
          ⟨pending1, cb_calls, notif.1, notif.2⟩

/-- A polling task, signal_poller.py lines 51-52 and 119: the tuple
`(signal_index, member_index, last_poll_time, last_response_time,
response_count, poll_count)`. -/
structure PollTask where
  signal_index : Nat
  member_index : Nat
  last_poll_time : ℚ
  last_response_time : ℚ
  response_count : Nat
  poll_count : Nat
  deriving DecidableEq, Repr

/-- The per-due-task update step of `SignalPoller.update`, signal_poller.py
lines 185-199: after `success = self.can_interface.read_signal(...)`, the
task is rewritten with `last_poll_time = current_time` and
`new_poll_count = poll_count + 1 if success else poll_count` — the
increment happens only when the read succeeded, although the comment on
lines 187-188 says the count is updated regardless of success. -/
def update_due_task (t : PollTask) (success : Bool) (current_time : ℚ) :
    PollTask :=
  { t with
    last_poll_time := current_time,
    poll_count := if success then t.poll_count + 1 else t.poll_count }

/-- The `polled_signals` dict of `SignalGateway`, signal_gateway.py line 64:
signal index to last poll/command time. -/
abbrev PolledMap := List (Nat × ℚ)

/-- Python dict lookup on `polled_signals`. -/
def polledLookup (m : PolledMap) (k : Nat) : Option ℚ :=
  (m.find? (fun p => p.1 == k)).map (fun p => p.2)

/-- Python dict assignment on `polled_signals`. -/
def polledInsert (m : PolledMap) (k : Nat) (t : ℚ) : PolledMap :=
  (m.filter (fun p => p.1 ≠ k)) ++ [(k, t)]

/-- Python `del` on `polled_signals`. -/
def polledRemove (m : PolledMap) (k : Nat) : PolledMap :=
  m.filter (fun p => p.1 ≠ k)

/-- Result of the unsolicited-signal filter: whether the signal is forwarded
to entity resolution and publishing (`forwarded = not is_unsolicited`), and
the `polled_signals` dict after the check. -/
structure FilterResult where
  forwarded : Bool
  polled : PolledMap
  deriving DecidableEq, Repr

/-- The unsolicited-signal filter of `SignalGateway.process_signal`,
signal_gateway.py lines 116-142: with filtering disabled everything is
forwarded; with filtering enabled, a signal index absent from
`polled_signals` is unsolicited; a present index whose timestamp is older
than `polled_signal_timeout` is removed and the signal is unsolicited; a
present, fresh index has its timestamp refreshed to `current_time` (line
133) and the signal is forwarded. -/
def process_signal_filter (ignore_unsolicited : Bool) (timeout : ℚ)
    (polled : PolledMap) (signal_index : Nat) (current_time : ℚ) :
    FilterResult :=
  if ignore_unsolicited then
    match polledLookup polled signal_index with
    | some last_poll_time =>
        if current_time - last_poll_time > timeout then
          ⟨false, polledRemove polled signal_index⟩
        else
          ⟨true, polledInsert polled signal_index current_time⟩
    | none => ⟨false, polled⟩
  else ⟨true, polled⟩

/-- The command-tracking step of `SignalGateway.handle_command`,
signal_gateway.py lines 206-211: when the entity resolves to signal info
carrying a `signal_index`, that index's timestamp in `polled_signals` is
set to the current time; otherwise the dict is untouched. -/
def handle_command_track (polled : PolledMap) (signal_index : Option Nat)
    (now : ℚ) : PolledMap :=
  match signal_index with
  | some i => polledInsert polled i now
  | none => polled

/-- Modelled from the spec: the signal catalog itself
(`elster_signals.yaml`, loaded by `load_elster_signals_from_yaml`) is not
present under src/.  Per spec §3 the catalog's lookup sentinel is the entry
with index 0 and type NONE, and per spec §8 the catalog contains the signal
`OUTSIDE_TEMP` at index 0x0126 with value type DEC_VAL.  This sample
catalog holds exactly those two records. -/
def sampleTable : List ElsterEntry :=
  [⟨"INDEX_NOT_FOUND", "INDEX_NOT_FOUND", 0, .ET_NONE⟩,
   ⟨"AUSSENTEMP", "OUTSIDE_TEMP", 0x0126, .ET_DEC_VAL⟩]

/-! ### Helper lemmas -/

theorem and_255_eq_mod (n : Nat) : n &&& 0xFF = n % 256 := by
  simpa using Nat.and_pow_two_sub_one_eq_mod n 8

theorem shiftRight_8_eq_div (n : Nat) : n >>> 8 = n / 256 := by
  rw [Nat.shiftRight_eq_div_pow]

theorem pyByte_coe (n k : Nat) : pyByte (n : Int) k = n / 2 ^ k % 256 := by
  have h2 : ((2 : Int) ^ k) = ((2 ^ k : Nat) : Int) := by push_cast; ring
  rw [pyByte, h2, ← Int.ofNat_fdiv]
  generalize n / 2 ^ k = m
  show (((m : Nat) : Int) % 256).toNat = m % 256
  omega

theorem pendingLookup_insert (m : PendingMap) (k : Nat × Nat)
    (e : PendingEntry) : pendingLookup (pendingInsert m k e) k = some e := by
  rw [pendingLookup, pendingInsert, List.find?_append]
  have h1 : (m.filter (fun p => p.1 ≠ k)).find? (fun p => p.1 == k) = none := by
    rw [List.find?_eq_none]
    intro x hx
    have := (List.mem_filter.mp hx).2
    simpa using this
  rw [h1]
  simp [List.find?]

theorem polledLookup_insert (m : PolledMap) (k : Nat) (t : ℚ) :
    polledLookup (polledInsert m k t) k = some t := by
  rw [polledLookup, polledInsert, List.find?_append]
  have h1 : (m.filter (fun p => p.1 ≠ k)).find? (fun p => p.1 == k) = none := by
    rw [List.find?_eq_none]
    intro x hx
    have := (List.mem_filter.mp hx).2
    simpa using this
  rw [h1]
  simp [List.find?]

theorem polledLookup_remove (m : PolledMap) (k : Nat) :
    polledLookup (polledRemove m k) k = none := by
  rw [polledLookup, polledRemove]
  have h1 : (m.filter (fun p => p.1 ≠ k)).find? (fun p => p.1 == k) = none := by
    rw [List.find?_eq_none]
    intro x hx
    have := (List.mem_filter.mp hx).2
    simpa using this
  rw [h1]
  rfl

/-! ### Claim theorems -/

/-- C1: the claimed decode/encode round trip (`value_from_signal` after
`signal_from_value`) does not exist in the code: encoding "24.5" at
`ET_DEC_VAL` yields raw 245, but decoding 245 at `ET_DEC_VAL` raises
`NameError` — elster_table.py line 232 reads
`elif    lsterType.ET_INTEGER ...`, an undefined name reached for every
value type other than `ET_NONE`, so decode never returns for any type with
an encode defined. -/
theorem C1_round_trip_broken_by_name_error :
    signal_from_value "24.5" .ET_DEC_VAL = .ok 245 ∧
    value_from_signal 245 .ET_DEC_VAL =
      .error "NameError: name 'lsterType' is not defined" := by
  constructor <;> rfl

/-- C3: the eviction half of the claim holds (two reads for the same
(member, index) leave exactly the second callback registered), but a single
matching response does not invoke the surviving callback and does not
remove the entry: the decode on protocol.py line 144 raises `NameError`
(elster_table.py line 232) for the DEC_VAL signal, and the per-message
`except` catches it before the pending request is popped. -/
theorem C3_override_then_response_lost :
    (read_signal DEFAULT_CAN_MEMBERS sampleTable
      (read_signal DEFAULT_CAN_MEMBERS sampleTable [] true 1 0x0126
        (some 1) 10).pending true 1 0x0126 (some 2) 20).pending =
      [((0x180, 0x0126), ⟨2, 20⟩)] ∧
    process_can_message sampleTable []
      [((0x180, 0x0126), ⟨2, 20⟩)] 0x180
      [0x00, 0x00, 0xFA, 0x01, 0x26, 0x00, 0xF5] =
      ⟨[((0x180, 0x0126), ⟨2, 20⟩)], [], [], true⟩ := by
  constructor <;> rfl

/-- C4: `write_signal` returns `False` even when encoding succeeds and the
transport send succeeds: on the success path, protocol.py line 320
evaluates an f-string referencing the undefined name `signal_name`, the
resulting `NameError` is caught by the function's `except`, and `False` is
returned — here for a write of "24.5" to the DEC_VAL signal 0x0126 with a
succeeding transport. -/
theorem C4_write_returns_false_on_success :
    signal_from_value "24.5" .ET_DEC_VAL = .ok 245 ∧
    write_signal DEFAULT_CAN_MEMBERS sampleTable true 1 0x0126 "24.5" =
      false := by
  constructor <;> rfl

/-- C7: on a due task whose `issue_read` failed, the poller sets
`last_poll_time` to the current time but does not increment `poll_count`
(signal_poller.py line 189 increments only on success, contradicting the
claim and the comment on lines 187-188); on success both are updated. -/
theorem C7_poll_count_only_on_success :
    update_due_task ⟨0x0126, 1, 0, 0, 0, 5⟩ false 1000 =
      ⟨0x0126, 1, 1000, 0, 0, 5⟩ ∧
    update_due_task ⟨0x0126, 1, 0, 0, 0, 5⟩ true 1000 =
      ⟨0x0126, 1, 1000, 0, 0, 6⟩ := by
  constructor <;> rfl

/-- C5 counterexample: reading signal index 0x9999, which is not in the
catalog, does not return false and does send a frame — the sentinel entry
(index 0) is substituted by `get_elster_entry_by_index` and a read frame
for index 0 goes out, the call returning the transport's `True`. -/
theorem C5_counterexample :
    read_signal DEFAULT_CAN_MEMBERS sampleTable [] true 1 0x9999 none 0 =
      ⟨true, [], some [0x31, 0x00, 0x00, 0x00, 0x00, 0x00, 0x00]⟩ := by
  rfl

/-- C6 counterexample: in the protocol's handler loop, handler 1 is
registered after a raising handler 0 and is never invoked for the frame —
only handler 0 runs, refuting per-callback isolation at this layer. -/
theorem C6_counterexample :
    protocol_notify [⟨0, true⟩, ⟨1, false⟩] (0x0126, .int 245, 0x180) =
      ([(0, (0x0126, .int 245, 0x180))], true) ∧
    ¬ (1, (0x0126, PyValue.int 245, 0x180)) ∈
      (protocol_notify [⟨0, true⟩, ⟨1, false⟩]
        (0x0126, .int 245, 0x180)).1 := by
  constructor
  · rfl
  · decide

/-- C8 counterexample: encoding the malformed date string "20230101" (no
dashes) at `ET_DATE` silently returns raw 0 instead of an error,
elster_table.py lines 348-349. -/
theorem C8_counterexample :
    signal_from_value "20230101" .ET_DATE = .ok 0 := by
  rfl

/-- C9 counterexample: after a command for signal 5 at t=0, a value at
t=200 is accepted and refreshes the timestamp (signal_gateway.py line 133),
so a value at t=400 — 400s after the only poll/command, with no further
poll or command — is still accepted, where the claim says it is dropped. -/
theorem C9_counterexample :
    (process_signal_filter true 300
      (process_signal_filter true 300
        (handle_command_track [] (some 5) 0) 5 200).polled 5 400).forwarded =
      true ∧
    (process_signal_filter true 300
      (handle_command_track [] (some 5) 0) 5 200).forwarded = true := by
  norm_num [process_signal_filter, handle_command_track, polledInsert,
    polledLookup, polledRemove, List.find?, List.filter]

/-- C2: for every member sub-address pair and signal index up to 0x1FFF,
the built read/write frames are 7 bytes with bytes 0-1 the sub-address,
standard layout (byte 2 = index; write value in bytes 3-4) exactly when the
index is at most 0xFF, extended layout (byte 2 = 0xFA, bytes 3-4 the index
big-endian, write value in bytes 5-6) otherwise, unused bytes zero; and the
parser drops any payload shorter than 7 bytes, reads the extended layout
when byte 2 is 0xFA, and the standard layout otherwise. -/
theorem C2_frame_codec
    (r w : Nat × Nat) (idx raw : Nat) (hidx : idx ≤ 0x1FFF)
    (hraw : raw ≤ 0xFFFF) :
    ((read_frame_data r idx).length = 7 ∧
     (write_frame_data w idx (raw : Int)).length = 7 ∧
     (idx ≤ 0xFF →
       read_frame_data r idx = [r.1, r.2, idx, 0, 0, 0, 0] ∧
       write_frame_data w idx (raw : Int) =
         [w.1, w.2, idx, raw / 256, raw % 256, 0, 0]) ∧
     (0xFF < idx →
       read_frame_data r idx =
         [r.1, r.2, 0xFA, idx / 256, idx % 256, 0, 0] ∧
       write_frame_data w idx (raw : Int) =
         [w.1, w.2, 0xFA, idx / 256, idx % 256, raw / 256, raw % 256])) ∧
    (∀ d : List Nat,
      (d.length < 7 → parse_frame d = none) ∧
      (7 ≤ d.length → d.getD 2 0 = 0xFA →
        parse_frame d =
          some ((d.getD 3 0) * 256 + d.getD 4 0,
            (d.getD 5 0) * 256 + d.getD 6 0)) ∧
      (7 ≤ d.length → d.getD 2 0 ≠ 0xFA →
        parse_frame d =
          some (d.getD 2 0, (d.getD 3 0) * 256 + d.getD 4 0))) := by
  have hhb : (idx >>> 8) &&& 0xFF = idx / 256 := by
    rw [shiftRight_8_eq_div, and_255_eq_mod]
    omega
  have hlb : idx &&& 0xFF = idx % 256 := and_255_eq_mod idx
  have hv8 : pyByte (raw : Int) 8 = raw / 256 := by
    rw [pyByte_coe]
    omega
  have hv0 : pyByte (raw : Int) 0 = raw % 256 := by
    rw [pyByte_coe]
    omega
  refine ⟨?_, ?_⟩
  · rw [read_frame_data, write_frame_data, hhb, hlb, hv8, hv0]
    by_cases hs : idx ≤ 0xFF
    · have h0 : idx / 256 = 0 := by omega
      have hm : idx % 256 = idx := by omega
      simp [h0, hm, hs]
    · have h0 : idx / 256 ≠ 0 := by omega
      simp [h0, hs]
  · intro d
    refine ⟨?_, ?_, ?_⟩
    · intro hlen
      rw [parse_frame, if_pos hlen]
    · intro hlen hfa
      rw [parse_frame, if_neg (by omega),
        if_pos (by simp only [beq_iff_eq]; exact hfa)]
      simp [Nat.shiftLeft_eq]
    · intro hlen hfa
      rw [parse_frame, if_neg (by omega),
        if_neg (by simp only [beq_iff_eq]; exact hfa)]
      simp [Nat.shiftLeft_eq]

/-- C2 witness: the theorem applied at a standard index (0x42) and checked
for the extended index 0x142 as well via a second application. -/
theorem C2_frame_codec_witness :
    read_frame_data (0x31, 0x00) 0x42 =
      [0x31, 0x00, 0x42, 0, 0, 0, 0] ∧
    read_frame_data (0x31, 0x00) 0x142 =
      [0x31, 0x00, 0xFA, 0x01, 0x42, 0, 0] ∧
    parse_frame [0x31, 0x00, 0xFA, 0x01, 0x42, 0x00, 0xF5] =
      some (0x142, 0xF5) := by
  refine ⟨?_, ?_, ?_⟩
  · exact ((C2_frame_codec (0x31, 0x00) (0x31, 0x00) 0x42 0 (by decide)
      (by decide)).1.2.2.1 (by decide)).1
  · have h := ((C2_frame_codec (0x31, 0x00) (0x31, 0x00) 0x142 0 (by decide)
      (by decide)).1.2.2.2 (by decide)).1
    simpa using h
  · have h := (((C2_frame_codec (0x31, 0x00) (0x31, 0x00) 0x142 0 (by decide)
      (by decide)).2 [0x31, 0x00, 0xFA, 0x01, 0x42, 0x00, 0xF5]).2.1
      (by decide) (by decide))
    simpa using h

/-- C5 amended: `read_signal` returns false, with no frame sent, whenever
the member index is out of range of the member list, and returns false when
the transport send fails; but for a signal index not in the catalog it does
not fail: the catalog lookup substitutes the sentinel entry (the first
table entry) and a read frame for the sentinel's index is sent, the call
returning the transport result. -/
theorem C5_read_signal_amended (members : List CanMember)
    (table : List ElsterEntry) (pending : PendingMap) (send_ok : Bool)
    (member_index signal_index : Nat) (callback : Option Nat) (now : ℚ) :
    (member_index ≥ members.length →
      read_signal members table pending send_ok member_index signal_index
        callback now = ⟨false, pending, none⟩) ∧
    (member_index < members.length →
      (read_signal members table pending send_ok member_index signal_index
        callback now).success = send_ok ∧
      (read_signal members table pending send_ok member_index signal_index
        callback now).sent =
        some (read_frame_data (members.getD member_index default).read_id
          (get_elster_entry_by_index table signal_index).index)) := by
  constructor
  · intro h
    rw [read_signal, if_pos h]
  · intro h
    rw [read_signal, if_neg (by omega)]
    exact ⟨rfl, rfl⟩

/-- C5 amended witness: an out-of-range member index (9 with 8 members)
returns false with nothing sent, and a valid member with a failing
transport returns false while sending the frame for the looked-up index. -/
theorem C5_read_signal_amended_witness :
    read_signal DEFAULT_CAN_MEMBERS sampleTable [] true 9 0x0126 none 0 =
      ⟨false, [], none⟩ ∧
    (read_signal DEFAULT_CAN_MEMBERS sampleTable [] false 1 0x0126 none
      0).success = false := by
  constructor
  · exact (C5_read_signal_amended DEFAULT_CAN_MEMBERS sampleTable [] true 9
      0x0126 none 0).1 (by decide)
  · exact ((C5_read_signal_amended DEFAULT_CAN_MEMBERS sampleTable [] false 1
      0x0126 none 0).2 (by decide)).1

/-- C6 amended: per-callback error isolation holds one layer below the
protocol's dispatch loop — `CanInterface._process_callbacks` routes every
registered global callback through `_call_callback`, so each one is invoked
with the same (index, value, can_id) triple no matter which callbacks
raise — while in `StiebelProtocol._process_can_message` an exception from
one signal handler is caught only by the per-message handler, so the
handlers registered after it are skipped for that frame (subsequent frames
are processed normally). -/
theorem C6_per_callback_isolation_amended :
    (∀ (handlers : List SigHandler) (arg : Nat × PyValue × Nat),
      process_callbacks handlers arg =
        handlers.map (fun h => (h.hid, arg))) ∧
    (∀ (h : SigHandler) (rest : List SigHandler) (arg : Nat × PyValue × Nat),
      h.raising = true →
      protocol_notify (h :: rest) arg = ([(h.hid, arg)], true)) := by
  constructor
  · intro handlers arg
    induction handlers with
    | nil => rfl
    | cons h rest ih =>
        simp only [process_callbacks, call_callback, List.flatMap_cons,
          List.map_cons, List.singleton_append, List.cons.injEq] at ih ⊢
        exact ⟨trivial, ih⟩
  · intro h rest arg hr
    rw [protocol_notify, if_pos hr]

/-- C6 amended witness: with a raising callback first, the interface layer
still invokes both callbacks with the same triple, while the protocol layer
stops after the raiser. -/
theorem C6_per_callback_isolation_amended_witness :
    process_callbacks [⟨0, true⟩, ⟨1, false⟩] (0x0126, .int 245, 0x180) =
      [(0, (0x0126, .int 245, 0x180)), (1, (0x0126, .int 245, 0x180))] ∧
    protocol_notify [⟨0, true⟩, ⟨1, false⟩] (0x0126, .int 245, 0x180) =
      ([(0, (0x0126, .int 245, 0x180))], true) := by
  constructor
  · exact C6_per_callback_isolation_amended.1 [⟨0, true⟩, ⟨1, false⟩]
      (0x0126, .int 245, 0x180)
  · exact C6_per_callback_isolation_amended.2 ⟨0, true⟩ [⟨1, false⟩]
      (0x0126, .int 245, 0x180) rfl

/-- C8 amended: `signal_from_value` raises for every value at `ET_NONE`,
and raises on non-numeric input for the numeric types (`ET_INTEGER`,
`ET_BYTE`, and the scaled float types); but a malformed `ET_DATE` string
that does not split into exactly three dash-separated parts silently
encodes to raw 0 (elster_table.py lines 348-349) instead of raising —
only a three-part date with a non-numeric part raises. -/
theorem C8_encode_errors_amended (s : String) :
    (∃ e, signal_from_value s .ET_NONE = .error e) ∧
    (pyInt s = none →
      (∃ e, signal_from_value s .ET_INTEGER = .error e) ∧
      (∃ e, signal_from_value s .ET_BYTE = .error e)) ∧
    (pyFloat s = none →
      (∃ e, signal_from_value s .ET_DEC_VAL = .error e) ∧
      (∃ e, signal_from_value s .ET_CENT_VAL = .error e) ∧
      (∃ e, signal_from_value s .ET_MIL_VAL = .error e) ∧
      (∃ e, signal_from_value s .ET_TIME = .error e)) ∧
    ((s.data.splitOn '-').length ≠ 3 →
      signal_from_value s .ET_DATE = .ok 0) ∧
    ((s.data.splitOn '-').length = 3 →
      (pyIntChars ((s.data.splitOn '-').getD 0 []) = none ∨
       pyIntChars ((s.data.splitOn '-').getD 1 []) = none ∨
       pyIntChars ((s.data.splitOn '-').getD 2 []) = none) →
      ∃ e, signal_from_value s .ET_DATE = .error e) := by
  refine ⟨⟨_, rfl⟩, ?_, ?_, ?_, ?_⟩
  · intro h
    constructor <;> exact ⟨_, by rw [signal_from_value, h]⟩
  · intro h
    refine ⟨?_, ?_, ?_, ?_⟩ <;> exact ⟨_, by rw [signal_from_value, h]⟩
  · intro h
    rw [signal_from_value]
    simp only [beq_iff_eq]
    rw [if_neg h]
  · intro hlen hnone
    rw [signal_from_value]
    simp only [beq_iff_eq]
    rw [if_pos hlen]
    rcases h0 : pyIntChars ((s.data.splitOn '-').getD 0 []) with _ | y <;>
      rcases h1 : pyIntChars ((s.data.splitOn '-').getD 1 []) with _ | m <;>
      rcases h2 : pyIntChars ((s.data.splitOn '-').getD 2 []) with _ | d <;>
      first
        | exact ⟨_, rfl⟩
        | (rw [h0, h1, h2] at hnone; simp at hnone)

/-- C8 amended witness: the string "abc" is neither an int nor a float nor
a three-part date, so the numeric types raise on it while `ET_DATE`
silently yields 0; the three-part date "2023-xx-05" with a non-numeric
middle component raises at `ET_DATE`. -/
theorem C8_encode_errors_amended_witness :
    (∃ e, signal_from_value "abc" .ET_INTEGER = .error e) ∧
    (∃ e, signal_from_value "abc" .ET_DEC_VAL = .error e) ∧
    signal_from_value "abc" .ET_DATE = .ok 0 ∧
    (∃ e, signal_from_value "2023-xx-05" .ET_DATE = .error e) := by
  refine ⟨?_, ?_, ?_, ?_⟩
  · exact ((C8_encode_errors_amended "abc").2.1 (by decide)).1
  · exact ((C8_encode_errors_amended "abc").2.2.1 (by decide)).1
  · exact (C8_encode_errors_amended "abc").2.2.2.1 (by decide)
  · exact (C8_encode_errors_amended "2023-xx-05").2.2.2.2 (by decide)
      (Or.inr (Or.inl (by decide)))

/-- C9 amended: with filtering enabled and timeout 300s, a received value
is forwarded iff its index is in `polled_signals` with a timestamp within
300s of now; a never-polled index is dropped; a command inserts/refreshes
the index's timestamp; a stale entry (older than 300s) is removed and the
value dropped; but each accepted value itself refreshes the timestamp
(signal_gateway.py line 133), so an index stays live as long as values
keep arriving within the window — it is dropped again only after 300s with
no poll, command, or accepted value for it. -/
theorem C9_filter_amended (polled : PolledMap) (idx : Nat) (now t : ℚ) :
    (polledLookup polled idx = none →
      process_signal_filter true 300 polled idx now = ⟨false, polled⟩) ∧
    (polledLookup polled idx = some t → now - t ≤ 300 →
      (process_signal_filter true 300 polled idx now).forwarded = true ∧
      polledLookup (process_signal_filter true 300 polled idx now).polled
        idx = some now) ∧
    (polledLookup polled idx = some t → now - t > 300 →
      (process_signal_filter true 300 polled idx now).forwarded = false ∧
      polledLookup (process_signal_filter true 300 polled idx now).polled
        idx = none) ∧
    polledLookup (handle_command_track polled (some idx) now) idx =
      some now := by
  refine ⟨?_, ?_, ?_, ?_⟩
  · intro h
    rw [process_signal_filter]
    simp only [if_true, h]
  · intro h hle
    rw [process_signal_filter]
    simp only [if_true, h]
    rw [if_neg (by exact not_lt.mpr hle)]
    exact ⟨rfl, polledLookup_insert polled idx now⟩
  · intro h hgt
    rw [process_signal_filter]
    simp only [if_true, h]
    rw [if_pos hgt]
    exact ⟨rfl, polledLookup_remove polled idx⟩
  · rw [handle_command_track]
    exact polledLookup_insert polled idx now

/-- C9 amended witness: an empty table drops index 5; a fresh entry
(timestamp 0, now 100) forwards; a stale entry (timestamp 0, now 400)
drops; a command registers the timestamp. -/
theorem C9_filter_amended_witness :
    process_signal_filter true 300 [] 5 100 = ⟨false, []⟩ ∧
    (process_signal_filter true 300 [(5, 0)] 5 100).forwarded = true ∧
    (process_signal_filter true 300 [(5, 0)] 5 400).forwarded = false ∧
    polledLookup (handle_command_track [] (some 5) 100) 5 = some 100 := by
  refine ⟨?_, ?_, ?_, ?_⟩
  · exact (C9_filter_amended [] 5 100 0).1 rfl
  · exact ((C9_filter_amended [(5, 0)] 5 100 0).2.1 rfl (by norm_num)).1
  · exact ((C9_filter_amended [(5, 0)] 5 400 0).2.2.1 rfl (by norm_num)).1
  · exact (C9_filter_amended [] 5 100 0).2.2.2

/-- C10: for a valid member index and a signal index present in the
catalog, `read_signal` with a callback rewrites the pending-request table
to hold the new callback under (member bus address, signal index) — the
overwrite happens before the transport send is attempted (protocol.py
lines 233-245) — and when the send fails the call returns false while the
newly registered entry stays in the table. -/
theorem C10_pending_registered_despite_send_failure
    (members : List CanMember) (table : List ElsterEntry)
    (pending : PendingMap) (send_ok : Bool)
    (member_index signal_index cb : Nat) (now : ℚ)
    (hm : member_index < members.length)
    (hs : (get_elster_entry_by_index table signal_index).index =
      signal_index) :
    (read_signal members table pending send_ok member_index signal_index
      (some cb) now).pending =
      pendingInsert pending
        ((members.getD member_index default).can_id, signal_index)
        ⟨cb, now⟩ ∧
    pendingLookup (read_signal members table pending send_ok member_index
      signal_index (some cb) now).pending
      ((members.getD member_index default).can_id, signal_index) =
      some ⟨cb, now⟩ ∧
    (send_ok = false →
      (read_signal members table pending send_ok member_index signal_index
        (some cb) now).success = false) := by
  have h1 : (read_signal members table pending send_ok member_index
      signal_index (some cb) now).pending =
      pendingInsert pending
        ((members.getD member_index default).can_id, signal_index)
        ⟨cb, now⟩ := by
    rw [read_signal, if_neg (by omega)]
    simp only [hs]
  refine ⟨h1, ?_, ?_⟩
  · rw [h1]
    exact pendingLookup_insert pending _ ⟨cb, now⟩
  · intro h
    rw [read_signal, if_neg (by omega)]
    exact h

/-- C10 witness: a read of OUTSIDE_TEMP (0x0126) from BOILER with callback
tag 9 at time 3 over a failing transport returns false yet leaves the
callback registered under (0x180, 0x0126). -/
theorem C10_pending_registered_witness :
    pendingLookup (read_signal DEFAULT_CAN_MEMBERS sampleTable [] false 1
      0x0126 (some 9) 3).pending (0x180, 0x0126) = some ⟨9, 3⟩ ∧
    (read_signal DEFAULT_CAN_MEMBERS sampleTable [] false 1 0x0126
      (some 9) 3).success = false := by
  constructor
  · exact (C10_pending_registered_despite_send_failure DEFAULT_CAN_MEMBERS
      sampleTable [] false 1 0x0126 9 3 (by decide) (by decide)).2.1
  · exact (C10_pending_registered_despite_send_failure DEFAULT_CAN_MEMBERS
      sampleTable [] false 1 0x0126 9 3 (by decide) (by decide)).2.2 rfl

end Stiebel
